import Mathlib

/-!
Verification of the Budget Report Engine of the budget-app repository:
the dashboard aggregation implemented by `DashboardView.get_context_data`
in `src/budget/views.py`, shallow-embedded over explicit record
collections.  Monetary amounts are embedded as rationals, matching the
spec's exact-arithmetic reading of the decimal fields; dates are records
with year, month and day so that month-only filters are visible.
-/

namespace Budget

/-- A category row: identifier and display name. -/
structure Category where
  id : Nat
  catName : String
deriving DecidableEq, Repr

/-- A savings goal: `Goal.objects` row with an owner and a target amount. -/
structure Goal where
  id : Nat
  owner : Nat
  goalName : String
  target_amount : ℚ
deriving DecidableEq, Repr

/-- A contribution row: references a goal (by id) and a contributor. -/
structure Contribution where
  goal : Nat
  contributor : Nat
  amount : ℚ
deriving DecidableEq, Repr

/-- A calendar date, with the fields the month filter can see. -/
structure Date where
  year : Nat
  month : Nat
  day : Nat
deriving DecidableEq, Repr

/-- An Income or Expense row: user, category (by id), amount, date, name.
The two Django models are structurally identical, so one record type
serves for both collections. -/
structure Transaction where
  user : Nat
  category : Nat
  amount : ℚ
  date : Date
  txName : String
deriving DecidableEq, Repr

/-- The read-only data store the report engine queries: the four row
collections plus the category reference data. -/
structure Store where
  categories : List Category
  goals : List Goal
  contributions : List Contribution
  incomes : List Transaction
  expenses : List Transaction
deriving DecidableEq, Repr

/-- One entry of `goals_with_progress` (views.py lines 101-105). -/
structure GoalProgress where
  goal : Goal
  total_contributions : ℚ
  progress : ℚ
deriving DecidableEq, Repr

/-- One entry of `category_summary` (views.py lines 124-128). -/
structure CategorySummary where
  category : Category
  total_expenses_in_category : ℚ
  total_incomes_in_category : ℚ
deriving DecidableEq, Repr

/-- The context data assembled at views.py lines 135-143. -/
structure Report where
  user_goals : List GoalProgress
  user_contribution : List Contribution
  other_contribution : List Contribution
  category_summary : List CategorySummary
  total_expenses : ℚ
  total_incomes : ℚ
  total_balance : ℚ
deriving DecidableEq, Repr

/-- Django `aggregate(Sum(..))`: `none` when the queryset is empty,
otherwise the sum of the amounts. -/
def sumAggregate (l : List ℚ) : Option ℚ :=
  match l with
  | [] => none
  | _ => some l.sum

/-- The `or 0` applied to each aggregate result in views.py. -/
def orZero (x : Option ℚ) : ℚ := x.getD 0

/-- `Goal.objects.filter(owner=self.request.user)` (views.py line 96). -/
def goalsOwnedBy (s : Store) (user : Nat) : List Goal :=
  s.goals.filter (fun g => g.owner == user)

/-- `Contribution.objects.filter(goal=goal)` (views.py line 99). -/
def contributionsForGoal (s : Store) (g : Goal) : List Contribution :=
  s.contributions.filter (fun c => c.goal == g.id)

/-- `...aggregate(total=Sum('amount'))['total'] or 0` (views.py line 99). -/
def totalContributions (s : Store) (g : Goal) : ℚ :=
  orZero (sumAggregate ((contributionsForGoal s g).map Contribution.amount))

/-- One iteration of the goal loop (views.py lines 98-105): the
progress is `(total / target) * 100` when the target is positive and
`0` otherwise. -/
def goalProgress (s : Store) (g : Goal) : GoalProgress :=
  let total := totalContributions s g
  { goal := g
    total_contributions := total
    progress := if 0 < g.target_amount then total / g.target_amount * 100 else 0 }

/-- `datetime.now().month - 1 if datetime.now().month > 1 else 12`
(views.py line 110), with the current month passed explicitly. -/
def lastMonth (nowMonth : Nat) : Nat :=
  if nowMonth > 1 then nowMonth - 1 else 12

/-- `Expense.objects.filter(category=category, user=..., date__month=last_month)`
(views.py lines 117-118): only the month-of-year of the date is
constrained, never the year. -/
def categoryExpenses (s : Store) (user : Nat) (c : Category) (m : Nat) :
    List Transaction :=
  s.expenses.filter (fun e => e.category == c.id && e.user == user && e.date.month == m)

/-- `Income.objects.filter(category=category, user=..., date__month=last_month)`
(views.py line 119). -/
def categoryIncomes (s : Store) (user : Nat) (c : Category) (m : Nat) :
    List Transaction :=
  s.incomes.filter (fun e => e.category == c.id && e.user == user && e.date.month == m)

/-- `category_expenses.aggregate(Sum('amount'))['amount__sum'] or 0`
(views.py line 121). -/
def totalExpensesInCategory (s : Store) (user : Nat) (c : Category) (m : Nat) : ℚ :=
  orZero (sumAggregate ((categoryExpenses s user c m).map Transaction.amount))

/-- `category_incomes.aggregate(Sum('amount'))['amount__sum'] or 0`
(views.py line 122). -/
def totalIncomesInCategory (s : Store) (user : Nat) (c : Category) (m : Nat) : ℚ :=
  orZero (sumAggregate ((categoryIncomes s user c m).map Transaction.amount))

/-- The `category_summary` list built by the loop over
`Category.objects.all()` (views.py lines 116-128). -/
def categorySummaryList (s : Store) (user : Nat) (m : Nat) : List CategorySummary :=
  s.categories.map (fun c =>
    { category := c
      total_expenses_in_category := totalExpensesInCategory s user c m
      total_incomes_in_category := totalIncomesInCategory s user c m })

/-- `DashboardView.get_context_data` (views.py lines 93-144), with the
ambient `datetime.now().month` made an explicit `nowMonth` parameter as
the spec's design notes require.  The running `total_expenses` and
`total_incomes` accumulated inside the category loop are expressed as
sums over the summary entries the same loop appends. -/
def buildReport (s : Store) (user : Nat) (nowMonth : Nat) : Report :=
  let user_goals := goalsOwnedBy s user
  let goals_with_progress := user_goals.map (goalProgress s)
  let user_contribution := s.contributions.filter (fun c => c.contributor == user)
  let other_contribution :=
    (s.contributions.filter (fun c => !(c.contributor == user))).filter
      (fun c => user_goals.any (fun g => g.id == c.goal))
  let m := lastMonth nowMonth
  let summary := categorySummaryList s user m
  let total_expenses := (summary.map CategorySummary.total_expenses_in_category).sum
  let total_incomes := (summary.map CategorySummary.total_incomes_in_category).sum
  { user_goals := goals_with_progress
    user_contribution := user_contribution
    other_contribution := other_contribution
    category_summary := summary
    total_expenses := total_expenses
    total_incomes := total_incomes
    total_balance := total_incomes - total_expenses }

/-- Concrete store used by the witnesses: user 1 owns goals with a
positive, a zero and a negative target, user 2 owns a fourth goal;
contributions come from both users; expenses for user 1 in month 4
span two different years, and one category has no transactions. -/
def storeA : Store :=
  { categories := [⟨0, "Test Category"⟩, ⟨1, "Empty Category"⟩]
    goals := [⟨0, 1, "Test Goal", 500⟩, ⟨1, 1, "Zero Goal", 0⟩,
              ⟨2, 1, "Neg Goal", -5⟩, ⟨3, 2, "Other Goal", 100⟩,
              ⟨4, 1, "Dry Goal", 200⟩]
    contributions := [⟨0, 1, 100⟩, ⟨0, 2, 50⟩, ⟨1, 2, 30⟩, ⟨2, 2, 7⟩, ⟨3, 2, 40⟩]
    incomes := [⟨1, 0, 200, ⟨2024, 4, 1⟩, "i1"⟩]
    expenses := [⟨1, 0, 100, ⟨2024, 4, 1⟩, "e1"⟩, ⟨1, 0, 25, ⟨2023, 4, 2⟩, "e2"⟩,
                 ⟨1, 0, 10, ⟨2024, 3, 1⟩, "e3"⟩, ⟨2, 0, 99, ⟨2024, 4, 1⟩, "e4"⟩] }

/-- The positive-target goal-progress entry of `storeA`. -/
def gpPos : GoalProgress := ⟨⟨0, 1, "Test Goal", 500⟩, 150, 30⟩

/-- The zero-target goal-progress entry of `storeA`. -/
def gpZero : GoalProgress := ⟨⟨1, 1, "Zero Goal", 0⟩, 30, 0⟩

/-- The negative-target goal-progress entry of `storeA`. -/
def gpNeg : GoalProgress := ⟨⟨2, 1, "Neg Goal", -5⟩, 7, 0⟩

/-- Aggregating with `or 0` is exactly list summation: the empty
queryset degrades to `0`, never to a missing value. -/
theorem orZero_sumAggregate (l : List ℚ) : orZero (sumAggregate l) = l.sum := by
  cases l <;> simp [orZero, sumAggregate]

/-- C1: every goal entry of the report with a positive target reports
`total_contributions` as the sum of all contribution rows referencing
that goal (all contributors included) and `progress` as exactly
`total_contributions / target_amount * 100`, with no clamping at 100. -/
theorem goal_progress_exact (s : Store) (user nowMonth : Nat) (gp : GoalProgress)
    (hgp : gp ∈ (buildReport s user nowMonth).user_goals)
    (hpos : 0 < gp.goal.target_amount) :
    gp.total_contributions
        = ((s.contributions.filter (fun c => c.goal == gp.goal.id)).map
            Contribution.amount).sum
      ∧ gp.progress = gp.total_contributions / gp.goal.target_amount * 100 := by
  simp only [buildReport, List.mem_map] at hgp
  obtain ⟨g, hg, rfl⟩ := hgp
  have hp : 0 < g.target_amount := by simpa [goalProgress] using hpos
  constructor
  · simp [goalProgress, totalContributions, orZero_sumAggregate, contributionsForGoal]
  · simp [goalProgress, hp]

/-- C1 witness: in `storeA`, the goal with target 500 receives 100 from
its owner and 50 from another user, and reports progress 30. -/
theorem goal_progress_exact_witness :
    gpPos ∈ (buildReport storeA 1 5).user_goals
      ∧ 0 < gpPos.goal.target_amount
      ∧ (gpPos.total_contributions
            = ((storeA.contributions.filter (fun c => c.goal == gpPos.goal.id)).map
                Contribution.amount).sum
         ∧ gpPos.progress = gpPos.total_contributions / gpPos.goal.target_amount * 100) := by
  have hmem : gpPos ∈ (buildReport storeA 1 5).user_goals := by
    norm_num [buildReport, storeA, gpPos, goalsOwnedBy, goalProgress, totalContributions,
      contributionsForGoal, sumAggregate, orZero, lastMonth]
  have hpos : 0 < gpPos.goal.target_amount := by norm_num [gpPos]
  exact ⟨hmem, hpos, goal_progress_exact storeA 1 5 gpPos hmem hpos⟩

/-- C2: every goal entry of the report whose target is zero reports
progress exactly 0, whatever its contributions sum to; the computation
is total, so no division-by-zero failure can arise. -/
theorem zero_target_progress_zero (s : Store) (user nowMonth : Nat) (gp : GoalProgress)
    (hgp : gp ∈ (buildReport s user nowMonth).user_goals)
    (hz : gp.goal.target_amount = 0) : gp.progress = 0 := by
  simp only [buildReport, List.mem_map] at hgp
  obtain ⟨g, hg, rfl⟩ := hgp
  have hz' : g.target_amount = 0 := by simpa [goalProgress] using hz
  simp [goalProgress, hz']

/-- C2 witness: in `storeA`, the zero-target goal holds contributions
summing to 30 yet reports progress 0. -/
theorem zero_target_progress_zero_witness :
    gpZero ∈ (buildReport storeA 1 5).user_goals
      ∧ gpZero.goal.target_amount = 0
      ∧ gpZero.progress = 0 := by
  have hmem : gpZero ∈ (buildReport storeA 1 5).user_goals := by
    norm_num [buildReport, storeA, gpZero, goalsOwnedBy, goalProgress, totalContributions,
      contributionsForGoal, sumAggregate, orZero, lastMonth]
  have hz : gpZero.goal.target_amount = 0 := by norm_num [gpZero]
  exact ⟨hmem, hz, zero_target_progress_zero storeA 1 5 gpZero hmem hz⟩

/-- C8: every goal entry of the report whose target is strictly
negative reports progress exactly 0, because the division branch is
guarded by `target_amount > 0`. -/
theorem negative_target_progress_zero (s : Store) (user nowMonth : Nat)
    (gp : GoalProgress) (hgp : gp ∈ (buildReport s user nowMonth).user_goals)
    (hneg : gp.goal.target_amount < 0) : gp.progress = 0 := by
  simp only [buildReport, List.mem_map] at hgp
  obtain ⟨g, hg, rfl⟩ := hgp
  have hneg' : g.target_amount < 0 := by simpa [goalProgress] using hneg
  have hnp : ¬ (0 < g.target_amount) := not_lt.mpr hneg'.le
  simp [goalProgress, hnp]

/-- C8 witness: in `storeA`, the goal with target -5 holds a
contribution of 7 yet reports progress 0, not a negative percentage. -/
theorem negative_target_progress_zero_witness :
    gpNeg ∈ (buildReport storeA 1 5).user_goals
      ∧ gpNeg.goal.target_amount < 0
      ∧ gpNeg.progress = 0 := by
  have hmem : gpNeg ∈ (buildReport storeA 1 5).user_goals := by
    norm_num [buildReport, storeA, gpNeg, goalsOwnedBy, goalProgress, totalContributions,
      contributionsForGoal, sumAggregate, orZero, lastMonth]
  have hneg : gpNeg.goal.target_amount < 0 := by norm_num [gpNeg]
  exact ⟨hmem, hneg, negative_target_progress_zero storeA 1 5 gpNeg hmem hneg⟩

/-- C4: in every report, `total_balance` is exactly `total_incomes -
total_expenses`, where the two grand totals are the sums of the
per-category totals appearing in `category_summary`; nothing prevents
the balance from being negative. -/
theorem total_balance_exact (s : Store) (user nowMonth : Nat) :
    (buildReport s user nowMonth).total_balance
        = (buildReport s user nowMonth).total_incomes
            - (buildReport s user nowMonth).total_expenses
      ∧ (buildReport s user nowMonth).total_expenses
          = ((buildReport s user nowMonth).category_summary.map
              CategorySummary.total_expenses_in_category).sum
      ∧ (buildReport s user nowMonth).total_incomes
          = ((buildReport s user nowMonth).category_summary.map
              CategorySummary.total_incomes_in_category).sum :=
  ⟨rfl, rfl, rfl⟩

/-- C7: with the reference month an explicit parameter, building the
report twice over the same store yields identical values, field by
field and as a whole: the engine is a pure function of the store, the
user and the reference month. -/
theorem build_report_idempotent (s : Store) (user nowMonth : Nat) :
    ((buildReport s user nowMonth).user_goals
        = (buildReport s user nowMonth).user_goals)
      ∧ ((buildReport s user nowMonth).user_contribution
          = (buildReport s user nowMonth).user_contribution)
      ∧ ((buildReport s user nowMonth).other_contribution
          = (buildReport s user nowMonth).other_contribution)
      ∧ ((buildReport s user nowMonth).category_summary
          = (buildReport s user nowMonth).category_summary)
      ∧ ((buildReport s user nowMonth).total_expenses
          = (buildReport s user nowMonth).total_expenses)
      ∧ ((buildReport s user nowMonth).total_incomes
          = (buildReport s user nowMonth).total_incomes)
      ∧ ((buildReport s user nowMonth).total_balance
          = (buildReport s user nowMonth).total_balance)
      ∧ buildReport s user nowMonth = buildReport s user nowMonth :=
  ⟨rfl, rfl, rfl, rfl, rfl, rfl, rfl, rfl⟩

/-- C5: `user_contribution` holds exactly the contribution rows whose
contributor is the user (whatever goal they target), and
`other_contribution` exactly those whose contributor differs from the
user and whose goal is owned by the user; hence a user's contribution
to their own goal lands in the first list and never in the second. -/
theorem contribution_partitioning (s : Store) (user nowMonth : Nat) (c : Contribution) :
    (c ∈ (buildReport s user nowMonth).user_contribution
        ↔ c ∈ s.contributions ∧ c.contributor = user)
      ∧ (c ∈ (buildReport s user nowMonth).other_contribution
          ↔ c ∈ s.contributions ∧ c.contributor ≠ user
              ∧ ∃ g, g ∈ s.goals ∧ g.owner = user ∧ g.id = c.goal)
      ∧ (c ∈ s.contributions → c.contributor = user →
          c ∈ (buildReport s user nowMonth).user_contribution
            ∧ c ∉ (buildReport s user nowMonth).other_contribution) := by
  have hown : c ∈ (buildReport s user nowMonth).user_contribution
      ↔ c ∈ s.contributions ∧ c.contributor = user := by
    simp [buildReport, List.mem_filter]
  have hoth : c ∈ (buildReport s user nowMonth).other_contribution
      ↔ c ∈ s.contributions ∧ c.contributor ≠ user
          ∧ ∃ g, g ∈ s.goals ∧ g.owner = user ∧ g.id = c.goal := by
    simp only [buildReport, goalsOwnedBy, List.mem_filter, List.any_eq_true,
      Bool.not_eq_eq_eq_not, Bool.not_true, beq_eq_false_iff_ne, beq_iff_eq,
      ne_eq, and_assoc]
  refine ⟨hown, hoth, fun hc hcu => ⟨hown.mpr ⟨hc, hcu⟩, fun hmem => ?_⟩⟩
  exact ((hoth.mp hmem).2.1) hcu

/-- C5 witness: in `storeA`, user 1's contribution of 100 to their own
goal 0 is in the store; it appears in `user_contribution` and not in
`other_contribution`. -/
theorem contribution_partitioning_witness :
    (⟨0, 1, 100⟩ : Contribution) ∈ storeA.contributions
      ∧ (⟨0, 1, 100⟩ : Contribution).contributor = 1
      ∧ ((⟨0, 1, 100⟩ : Contribution) ∈ (buildReport storeA 1 5).user_contribution
         ∧ (⟨0, 1, 100⟩ : Contribution) ∉ (buildReport storeA 1 5).other_contribution) := by
  have hc : (⟨0, 1, 100⟩ : Contribution) ∈ storeA.contributions := by decide
  have hcu : (⟨0, 1, 100⟩ : Contribution).contributor = 1 := by decide
  exact ⟨hc, hcu, (contribution_partitioning storeA 1 5 ⟨0, 1, 100⟩).2.2 hc hcu⟩

/-- C9: a contribution whose contributor is not the user and whose goal
is not one of the user's goals appears in neither contribution list of
the user's report. -/
theorem outsider_contribution_excluded (s : Store) (user nowMonth : Nat)
    (c : Contribution) (hne : c.contributor ≠ user)
    (hng : ∀ g, g ∈ s.goals → g.id = c.goal → g.owner ≠ user) :
    c ∉ (buildReport s user nowMonth).user_contribution
      ∧ c ∉ (buildReport s user nowMonth).other_contribution := by
  constructor
  · intro hmem
    exact hne (((contribution_partitioning s user nowMonth c).1.mp hmem).2)
  · intro hmem
    obtain ⟨-, -, g, hg, hgo, hgi⟩ :=
      (contribution_partitioning s user nowMonth c).2.1.mp hmem
    exact hng g hg hgi hgo

/-- C9 witness: in `storeA`, user 2's contribution of 40 to user 2's
own goal 3 is invisible in user 1's report. -/
theorem outsider_contribution_excluded_witness :
    (⟨3, 2, 40⟩ : Contribution).contributor ≠ 1
      ∧ (∀ g, g ∈ storeA.goals → g.id = (⟨3, 2, 40⟩ : Contribution).goal → g.owner ≠ 1)
      ∧ ((⟨3, 2, 40⟩ : Contribution) ∉ (buildReport storeA 1 5).user_contribution
         ∧ (⟨3, 2, 40⟩ : Contribution) ∉ (buildReport storeA 1 5).other_contribution) := by
  have hne : (⟨3, 2, 40⟩ : Contribution).contributor ≠ 1 := by decide
  have hng : ∀ g, g ∈ storeA.goals → g.id = (⟨3, 2, 40⟩ : Contribution).goal →
      g.owner ≠ 1 := by decide
  exact ⟨hne, hng, outsider_contribution_excluded storeA 1 5 ⟨3, 2, 40⟩ hne hng⟩

/-- C3: for any current month from 1 on, the reporting month is
`current_month - 1`, except that it is 12 when the current month is 1;
each summary entry's expense (resp. income) total sums exactly the
expense (resp. income) rows matching the category, the user and that
month-of-year — the date's year is not constrained, so rows of any year
with that month number are included. -/
theorem reporting_month_filter (s : Store) (user nowMonth : Nat)
    (h1 : 1 ≤ nowMonth) :
    lastMonth nowMonth = (if nowMonth = 1 then 12 else nowMonth - 1)
      ∧ ∀ entry ∈ (buildReport s user nowMonth).category_summary,
          entry.total_expenses_in_category
              = ((s.expenses.filter (fun e =>
                    e.category == entry.category.id && e.user == user
                      && e.date.month == (if nowMonth = 1 then 12 else nowMonth - 1))).map
                  Transaction.amount).sum
            ∧ entry.total_incomes_in_category
              = ((s.incomes.filter (fun e =>
                    e.category == entry.category.id && e.user == user
                      && e.date.month == (if nowMonth = 1 then 12 else nowMonth - 1))).map
                  Transaction.amount).sum := by
  have hm : lastMonth nowMonth = (if nowMonth = 1 then 12 else nowMonth - 1) := by
    unfold lastMonth
    rcases Nat.lt_or_ge 1 nowMonth with h | h
    · rw [if_pos h, if_neg (by omega)]
    · have h1' : nowMonth = 1 := by omega
      subst h1'
      rfl
  refine ⟨hm, ?_⟩
  intro entry hentry
  simp only [buildReport, categorySummaryList, List.mem_map] at hentry
  obtain ⟨cat, hcat, rfl⟩ := hentry
  constructor
  · simp [totalExpensesInCategory, categoryExpenses, orZero_sumAggregate, ← hm]
  · simp [totalIncomesInCategory, categoryIncomes, orZero_sumAggregate, ← hm]

/-- C3 witness: instantiated at current month 1, where the reporting
month wraps to 12. -/
theorem reporting_month_filter_witness :
    (1 ≤ 1)
      ∧ (lastMonth 1 = (if (1 : Nat) = 1 then 12 else 1 - 1)
         ∧ ∀ entry ∈ (buildReport storeA 1 1).category_summary,
             entry.total_expenses_in_category
                 = ((storeA.expenses.filter (fun e =>
                       e.category == entry.category.id && e.user == 1
                         && e.date.month == (if (1 : Nat) = 1 then 12 else 1 - 1))).map
                     Transaction.amount).sum
               ∧ entry.total_incomes_in_category
                 = ((storeA.incomes.filter (fun e =>
                       e.category == entry.category.id && e.user == 1
                         && e.date.month == (if (1 : Nat) = 1 then 12 else 1 - 1))).map
                     Transaction.amount).sum) :=
  ⟨by decide, reporting_month_filter storeA 1 1 (by decide)⟩

/-- C6: every category of the store appears, in order, in the report's
`category_summary`; a category whose expense (resp. income) query comes
back empty reports a total of 0, and a goal whose contribution query
comes back empty reports `total_contributions = 0` — the `None` an
empty aggregate yields is defaulted to 0 and never propagates. -/
theorem categories_listed_empty_zero (s : Store) (user nowMonth : Nat) :
    ((buildReport s user nowMonth).category_summary.map CategorySummary.category
        = s.categories)
      ∧ (∀ entry ∈ (buildReport s user nowMonth).category_summary,
          (categoryExpenses s user entry.category (lastMonth nowMonth) = [] →
              entry.total_expenses_in_category = 0)
            ∧ (categoryIncomes s user entry.category (lastMonth nowMonth) = [] →
              entry.total_incomes_in_category = 0))
      ∧ (∀ gp ∈ (buildReport s user nowMonth).user_goals,
          contributionsForGoal s gp.goal = [] → gp.total_contributions = 0) := by
  refine ⟨?_, ?_, ?_⟩
  · simp only [buildReport, categorySummaryList, List.map_map]
    have hcomp : (CategorySummary.category ∘ fun c : Category =>
        (⟨c, totalExpensesInCategory s user c (lastMonth nowMonth),
           totalIncomesInCategory s user c (lastMonth nowMonth)⟩ : CategorySummary))
        = id := rfl
    rw [hcomp, List.map_id]
  · intro entry hentry
    simp only [buildReport, categorySummaryList, List.mem_map] at hentry
    obtain ⟨cat, hcat, rfl⟩ := hentry
    constructor
    · intro hemp
      simp [totalExpensesInCategory, hemp, sumAggregate, orZero]
    · intro hemp
      simp [totalIncomesInCategory, hemp, sumAggregate, orZero]
  · intro gp hgp
    simp only [buildReport, List.mem_map] at hgp
    obtain ⟨g, hg, rfl⟩ := hgp
    intro hemp
    simp only [goalProgress] at hemp ⊢
    simp [totalContributions, hemp, sumAggregate, orZero]

/-- C6 witness: in `storeA`, the category with no transactions reports
both totals 0 and the goal with no contributions reports total 0. -/
theorem categories_listed_empty_zero_witness :
    (⟨⟨1, "Empty Category"⟩, 0, 0⟩ : CategorySummary)
        ∈ (buildReport storeA 1 5).category_summary
      ∧ categoryExpenses storeA 1 ⟨1, "Empty Category"⟩ (lastMonth 5) = []
      ∧ (⟨⟨1, "Empty Category"⟩, 0, 0⟩ : CategorySummary).total_expenses_in_category = 0
      ∧ (⟨⟨4, 1, "Dry Goal", 200⟩, 0, 0⟩ : GoalProgress)
          ∈ (buildReport storeA 1 5).user_goals
      ∧ contributionsForGoal storeA ⟨4, 1, "Dry Goal", 200⟩ = []
      ∧ (⟨⟨4, 1, "Dry Goal", 200⟩, 0, 0⟩ : GoalProgress).total_contributions = 0 := by
  have h := categories_listed_empty_zero storeA 1 5
  have hmem1 : (⟨⟨1, "Empty Category"⟩, 0, 0⟩ : CategorySummary)
      ∈ (buildReport storeA 1 5).category_summary := by
    norm_num [buildReport, storeA, categorySummaryList, totalExpensesInCategory,
      totalIncomesInCategory, categoryExpenses, categoryIncomes, sumAggregate,
      orZero, lastMonth]
  have hemp1 : categoryExpenses storeA 1 ⟨1, "Empty Category"⟩ (lastMonth 5) = [] := by
    decide
  have hmem2 : (⟨⟨4, 1, "Dry Goal", 200⟩, 0, 0⟩ : GoalProgress)
      ∈ (buildReport storeA 1 5).user_goals := by
    norm_num [buildReport, storeA, goalsOwnedBy, goalProgress, totalContributions,
      contributionsForGoal, sumAggregate, orZero, lastMonth]
  have hemp2 : contributionsForGoal storeA ⟨4, 1, "Dry Goal", 200⟩ = [] := by decide
  exact ⟨hmem1, hemp1, (h.2.1 _ hmem1).1 hemp1, hmem2, hemp2, h.2.2 _ hmem2 hemp2⟩

/-- Summing an if-then-else over a list equals summing the amounts of
the filtered list. -/
theorem sum_map_ite_amount (p : Transaction → Bool) (l : List Transaction) :
    (l.map (fun e => if p e then e.amount else 0)).sum
      = ((l.filter p).map Transaction.amount).sum := by
  induction l with
  | nil => simp
  | cons a t ih => by_cases h : p a <;> simp [List.filter_cons, h, ih]

/-- Exchanging the two summations of the category loop: summing the
per-category filtered totals over all categories equals summing, over
the user's rows of the reporting month, each amount weighted by the
number of category rows whose id matches the row's category. -/
theorem category_sweep (cats : List Category) (l : List Transaction) (u m : Nat) :
    (cats.map (fun c =>
        ((l.filter (fun e => e.category == c.id && e.user == u
            && e.date.month == m)).map Transaction.amount).sum)).sum
      = ((l.filter (fun e => e.user == u && e.date.month == m)).map
          (fun e => e.amount * (cats.countP (fun c => e.category == c.id) : ℚ))).sum := by
  induction cats with
  | nil =>
      refine Eq.symm (List.sum_eq_zero ?_)
      intro x hx
      simp only [List.mem_map] at hx
      obtain ⟨e, he, rfl⟩ := hx
      simp
  | cons c cs ih =>
      simp only [List.map_cons, List.sum_cons, List.countP_cons, ih]
      rw [show ∀ q : List Transaction, (q.map
        (fun e => e.amount * ((cs.countP (fun c' => e.category == c'.id)
          + if e.category == c.id then 1 else 0 : ℕ) : ℚ))) = (q.map
        (fun e => e.amount * (cs.countP (fun c' => e.category == c'.id) : ℚ)
          + (if e.category == c.id then e.amount else 0))) from
        fun q => List.map_congr_left (fun e _ => by
          push_cast
          by_cases h : e.category == c.id <;> simp [h, mul_add])]
      rw [List.sum_map_add, sum_map_ite_amount, List.filter_filter]
      rw [show (fun e : Transaction => e.category == c.id
          && (e.user == u && e.date.month == m))
        = (fun e : Transaction => e.category == c.id && e.user == u
          && e.date.month == m) from funext (fun e => by rw [Bool.and_assoc])]
      ring

/-- C10: `total_expenses` (resp. `total_incomes`) equals the sum, over
the user's expense (resp. income) rows dated in the reporting month, of
each amount multiplied by the number of occurrences of its category
among all category rows — so a row whose category is absent contributes
nothing (multiplicity 0) and one whose category occurs twice is counted
twice; when every row's category occurs exactly once, `total_expenses`
is the plain sum of the user's reporting-month expense amounts. -/
theorem totals_weighted_by_category_multiplicity (s : Store) (user nowMonth : Nat) :
    ((buildReport s user nowMonth).total_expenses
        = ((s.expenses.filter (fun e => e.user == user
              && e.date.month == lastMonth nowMonth)).map
            (fun e => e.amount
              * (s.categories.countP (fun c => e.category == c.id) : ℚ))).sum)
      ∧ ((buildReport s user nowMonth).total_incomes
          = ((s.incomes.filter (fun e => e.user == user
                && e.date.month == lastMonth nowMonth)).map
              (fun e => e.amount
                * (s.categories.countP (fun c => e.category == c.id) : ℚ))).sum)
      ∧ ((∀ e ∈ s.expenses, s.categories.countP (fun c => e.category == c.id) = 1) →
          (buildReport s user nowMonth).total_expenses
            = ((s.expenses.filter (fun e => e.user == user
                  && e.date.month == lastMonth nowMonth)).map Transaction.amount).sum) := by
  have hE : (buildReport s user nowMonth).total_expenses
      = (s.categories.map (fun c =>
          ((s.expenses.filter (fun e => e.category == c.id && e.user == user
              && e.date.month == lastMonth nowMonth)).map Transaction.amount).sum)).sum := by
    simp only [buildReport, categorySummaryList, List.map_map,
      totalExpensesInCategory, categoryExpenses, orZero_sumAggregate]
    exact congrArg List.sum (List.map_congr_left fun c _ => by
      simp [Function.comp, orZero_sumAggregate])
  have hI : (buildReport s user nowMonth).total_incomes
      = (s.categories.map (fun c =>
          ((s.incomes.filter (fun e => e.category == c.id && e.user == user
              && e.date.month == lastMonth nowMonth)).map Transaction.amount).sum)).sum := by
    simp only [buildReport, categorySummaryList, List.map_map,
      totalIncomesInCategory, categoryIncomes, orZero_sumAggregate]
    exact congrArg List.sum (List.map_congr_left fun c _ => by
      simp [Function.comp, orZero_sumAggregate])
  refine ⟨hE.trans (category_sweep s.categories s.expenses user (lastMonth nowMonth)),
    hI.trans (category_sweep s.categories s.incomes user (lastMonth nowMonth)),
    fun hall => ?_⟩
  rw [hE.trans (category_sweep s.categories s.expenses user (lastMonth nowMonth))]
  refine congrArg List.sum (List.map_congr_left fun e he => ?_)
  rw [hall e (List.mem_of_mem_filter he)]
  norm_num

/-- C10 witness: in `storeA` every expense's category occurs exactly
once among the category rows, so `total_expenses` is the plain sum of
user 1's month-4 expense amounts. -/
theorem totals_weighted_by_category_multiplicity_witness :
    (∀ e ∈ storeA.expenses,
        storeA.categories.countP (fun c => e.category == c.id) = 1)
      ∧ (buildReport storeA 1 5).total_expenses
          = ((storeA.expenses.filter (fun e => e.user == 1
                && e.date.month == lastMonth 5)).map Transaction.amount).sum :=
  ⟨by decide, (totals_weighted_by_category_multiplicity storeA 1 5).2.2 (by decide)⟩

end Budget
